import Mathlib

/-!
Verification model of the aina-gateway access-control layer
(`src/auth.py`, `src/server.py`).

The development shallowly embeds the two security middleware stages — the
IP whitelist ("Origin Filter") and the bearer-token check ("Credential
Gate") — together with the address-extraction and network-classification
utilities they rely on.  Python string operations and the parts of the
Python `ipaddress` standard-library module that the source exercises
(`ip_address`, `ip_network(strict=False)` with prefix-length masks, and
`addr in network` membership) are modelled as executable Lean functions.
-/

namespace AinaGateway

/-! ### Python string primitives -/

/-- Model of Python `str.split(sep)` for a one-character separator:
`"".split(sep) = [""]`, and separators at the ends produce empty fields. -/
def splitOnChar (sep : Char) : List Char → List (List Char)
  | [] => [[]]
  | c :: rest =>
    let r := splitOnChar sep rest
    if c = sep then [] :: r
    else
      match r with
      | [] => [[c]]
      | g :: gs => (c :: g) :: gs

/-- String-level wrapper for `splitOnChar`. -/
def pySplit (s : String) (sep : Char) : List String :=
  (splitOnChar sep s.data).map String.mk

/-- Model of Python `str.strip()`: whitespace removed from both ends. -/
def pyStrip (s : String) : String :=
  String.mk (((s.data.dropWhile Char.isWhitespace).reverse.dropWhile Char.isWhitespace).reverse)

/-- Model of Python `str.startswith(pre)`. -/
def pyStartswith (s pre : String) : Bool :=
  pre.data.isPrefixOf s.data

/-- Model of Python `str.removeprefix(pre)`: drop the leading occurrence of
`pre` when present, otherwise return the string unchanged. -/
def pyDropPre (s pre : String) : String :=
  if pyStartswith s pre then String.mk (s.data.drop pre.data.length) else s

/-- ASCII lower-casing of one character. -/
def lowerChar (c : Char) : Char :=
  if 'A' ≤ c ∧ c ≤ 'Z' then Char.ofNat (c.toNat + 32) else c

/-- ASCII lower-casing, used for case-insensitive HTTP header lookup. -/
def pyLower (s : String) : String :=
  String.mk (s.data.map lowerChar)

/-! ### Model of the Python `ipaddress` module -/

/-- A parsed IP address: its integer value tagged with the address family. -/
inductive IPAddr where
  | v4 (val : Nat)
  | v6 (val : Nat)
deriving DecidableEq, Repr

/-- Address family number (4 or 6), as `ipaddress`'s `_version`. -/
def IPAddr.version : IPAddr → Nat
  | .v4 _ => 4
  | .v6 _ => 6

/-- Integer value of the address, as `ipaddress`'s `_ip`. -/
def IPAddr.val : IPAddr → Nat
  | .v4 v => v
  | .v6 v => v

/-- Model of `IPv4Address._parse_octet`: one to three ASCII decimal digits,
no leading zero, value at most 255. -/
def _parse_octet (s : String) : Option Nat :=
  let cs := s.data
  if cs = [] then none
  else if ¬ cs.all Char.isDigit then none
  else if cs.length > 3 then none
  else if cs.length > 1 ∧ cs.getD 0 'x' = '0' then none
  else
    let n := cs.foldl (fun acc c => acc * 10 + (c.toNat - 48)) 0
    if n > 255 then none else some n

/-- Model of IPv4 dotted-quad parsing (`IPv4Address._ip_int_from_string`):
exactly four octets joined by dots. -/
def ipv4_from_string (s : String) : Option Nat :=
  match (pySplit s '.').mapM _parse_octet with
  | some [a, b, c, d] => some (((a * 256 + b) * 256 + c) * 256 + d)
  | _ => none

/-- ASCII hexadecimal digit test. -/
def isHexDigitChar (c : Char) : Bool :=
  c.isDigit || ('a' ≤ c && c ≤ 'f') || ('A' ≤ c && c ≤ 'F')

/-- Value of an ASCII hexadecimal digit. -/
def hexDigitVal (c : Char) : Nat :=
  if c.isDigit then c.toNat - 48
  else if 'a' ≤ c ∧ c ≤ 'f' then c.toNat - 87
  else c.toNat - 55

/-- Model of `IPv6Address._parse_hextet`: one to four hex digits. -/
def _parse_hextet (s : String) : Option Nat :=
  let cs := s.data
  if cs = [] then none
  else if ¬ cs.all isHexDigitChar then none
  else if cs.length > 4 then none
  else some (cs.foldl (fun acc c => acc * 16 + hexDigitVal c) 0)

/-- Indices of empty groups strictly inside the colon-separated part list:
candidate positions of the `::` compression (Python scans `range(1, n-1)`). -/
def innerEmptyIdx (parts : List String) : List Nat :=
  (List.range parts.length).filter
    (fun i => decide (1 ≤ i) && decide (i + 1 < parts.length) && decide (parts.getD i "x" = ""))

/-- Left fold accumulating 16-bit groups into one integer. -/
def foldHextets (vals : List Nat) (init : Nat) : Nat :=
  vals.foldl (fun acc v => acc * 65536 + v) init

/-- Assemble the 128-bit value from the high groups, the zero groups elided
by `::`, and the low groups, as `IPv6Address._ip_int_from_string` does. -/
def assembleV6 (parts : List String) (hi lo skipped : Nat) : Option Nat := do
  let hiVals ← (parts.take hi).mapM _parse_hextet
  let loVals ← (parts.drop (parts.length - lo)).mapM _parse_hextet
  some (foldHextets loVals ((foldHextets hiVals 0) * 65536 ^ skipped))

/-- Model of `IPv6Address._ip_int_from_string`: split on colons, expand a
trailing dotted-quad into two hex groups, locate at most one `::`, check the
part counts, and assemble the value.  Zone identifiers (`%`) are not
modelled; no input exercised here carries one. -/
def ipv6_from_string (s : String) : Option Nat :=
  let parts0 := pySplit s ':'
  if parts0.length < 3 then none
  else
    let partsOpt : Option (List String) :=
      match parts0.getLast? with
      | some last =>
        if last.data.contains '.' then
          match ipv4_from_string last with
          | some v4 =>
            some (parts0.dropLast ++
              [String.mk (Nat.toDigits 16 (v4 / 65536)), String.mk (Nat.toDigits 16 (v4 % 65536))])
          | none => none
        else some parts0
      | none => some parts0
    match partsOpt with
    | none => none
    | some parts =>
      if parts.length > 9 then none
      else
        match innerEmptyIdx parts with
        | [] =>
          if parts.length = 8 ∧ parts.getD 0 "x" ≠ "" ∧ parts.getLast? ≠ some "" then
            assembleV6 parts 8 0 0
          else none
        | [i] =>
          let hi := if parts.getD 0 "x" = "" then i - 1 else i
          let lo0 := parts.length - i - 1
          let lo := if parts.getLast? = some "" then lo0 - 1 else lo0
          if parts.getD 0 "x" = "" ∧ hi ≠ 0 then none
          else if parts.getLast? = some "" ∧ lo ≠ 0 then none
          else if 8 ≤ hi + lo then none
          else assembleV6 parts hi lo (8 - (hi + lo))
        | _ => none

/-- Model of `ipaddress.ip_address`: try IPv4 first, then IPv6; `none` when
neither family parses the string. -/
def ip_address? (s : String) : Option IPAddr :=
  match ipv4_from_string s with
  | some v => some (IPAddr.v4 v)
  | none =>
    match ipv6_from_string s with
    | some v => some (IPAddr.v6 v)
    | none => none

/-- A parsed CIDR network: family, network address (host bits cleared), and
prefix length. -/
structure IPNetwork where
  version : Nat
  network_address : Nat
  prefixlen : Nat
deriving DecidableEq, Repr

/-- Netmask integer for prefix length `p` in a family of `bits` total bits. -/
def netmaskInt (bits p : Nat) : Nat := 2 ^ bits - 2 ^ (bits - p)

/-- Model of `_prefix_from_prefix_string`: ASCII decimal digits whose value
is at most the family's bit length. -/
def maskLenFromString (s : String) (maxLen : Nat) : Option Nat :=
  let cs := s.data
  if cs = [] then none
  else if ¬ cs.all Char.isDigit then none
  else
    let n := cs.foldl (fun acc c => acc * 10 + (c.toNat - 48)) 0
    if n ≤ maxLen then some n else none

/-- Model of `IPv4Network(s, strict=False)` with a prefix-length mask: the
host bits are cleared rather than rejected. -/
def ipv4_network_from_string (s : String) : Option IPNetwork :=
  match pySplit s '/' with
  | [addr] => (ipv4_from_string addr).map (fun v => IPNetwork.mk 4 v 32)
  | [addr, mask] =>
    match ipv4_from_string addr, maskLenFromString mask 32 with
    | some v, some p => some (IPNetwork.mk 4 (v &&& netmaskInt 32 p) p)
    | _, _ => none
  | _ => none

/-- Model of `IPv6Network(s, strict=False)` with a prefix-length mask. -/
def ipv6_network_from_string (s : String) : Option IPNetwork :=
  match pySplit s '/' with
  | [addr] => (ipv6_from_string addr).map (fun v => IPNetwork.mk 6 v 128)
  | [addr, mask] =>
    match ipv6_from_string addr, maskLenFromString mask 128 with
    | some v, some p => some (IPNetwork.mk 6 (v &&& netmaskInt 128 p) p)
    | _, _ => none
  | _ => none

/-- Model of `ipaddress.ip_network(s, strict=False)`: try IPv4, then IPv6. -/
def ip_network? (s : String) : Option IPNetwork :=
  match ipv4_network_from_string s with
  | some n => some n
  | none => ipv6_network_from_string s

/-- Model of Python `addr in network` (`_BaseNetwork.__contains__`): always
`false` across address families, otherwise compare the masked address with
the network address. -/
def network_contains (n : IPNetwork) (a : IPAddr) : Bool :=
  decide (a.version = n.version) &&
  decide ((a.val &&& netmaskInt (if n.version = 4 then 32 else 128) n.prefixlen) = n.network_address)

example : ipv4_from_string "10.1.2.3" = some 0x0a010203 := by decide
example : ipv4_from_string "10.1.2" = none := by decide
example : ipv4_from_string "256.1.2.3" = none := by decide
example : ip_address? "::1" = some (IPAddr.v6 1) := by decide
example : ip_address? "::ffff:10.1.2.3" = some (IPAddr.v6 (0xffff * 2 ^ 32 + 0x0a010203)) := by decide
example : ip_address? "not-an-ip" = none := by decide
example : ip_network? "10.0.0.0/8" = some (IPNetwork.mk 4 0x0a000000 8) := by decide
example : ip_network? "::1/128" = some (IPNetwork.mk 6 1 128) := by decide
example : ip_network? "160.79.104.0/21" = some (IPNetwork.mk 4 0xa04f6800 21) := by decide
example : network_contains (IPNetwork.mk 4 0x0a000000 8) (IPAddr.v4 0x0a010203) = true := by decide
example : network_contains (IPNetwork.mk 4 0x0a000000 8) (IPAddr.v6 (0xffff * 2 ^ 32 + 0x0a010203)) = false := by decide

/-! ### Model of `src/auth.py` -/

/-- Anthropic's published outbound CIDRs (`ANTHROPIC_CIDRS` in the source);
the spec calls them `UpstreamProviderRanges`. -/
def ANTHROPIC_CIDRS : List String :=
  ["160.79.104.0/21",
   "34.162.46.92/32",
   "34.162.102.82/32",
   "34.162.136.91/32",
   "34.162.142.92/32",
   "34.162.183.95/32"]

/-- Loopback CIDRs (`LOOPBACK_CIDRS`); the spec's `LoopbackRanges`. -/
def LOOPBACK_CIDRS : List String :=
  ["127.0.0.0/8", "::1/128"]

/-- Private/LAN CIDRs (`LAN_CIDRS`); the spec's `LocalNetworkRanges`. -/
def LAN_CIDRS : List String :=
  ["10.0.0.0/8", "172.16.0.0/12", "192.168.0.0/16"]

/-- Model of `_parse_networks`: parse each CIDR, keeping the successes in
order and dropping (after logging, which is not modelled) each entry that
fails to parse.  The function is total: no input makes it fail. -/
def _parse_networks : List String → List IPNetwork
  | [] => []
  | c :: rest =>
    match ip_network? c with
    | some n => n :: _parse_networks rest
    | none => _parse_networks rest

/-- Pre-parsed Anthropic networks (`ANTHROPIC_NETWORKS`). -/
def ANTHROPIC_NETWORKS : List IPNetwork := _parse_networks ANTHROPIC_CIDRS

/-- Pre-parsed loopback networks (`LOOPBACK_NETWORKS`). -/
def LOOPBACK_NETWORKS : List IPNetwork := _parse_networks LOOPBACK_CIDRS

/-- Model of `_build_whitelist`: static CIDR lists plus the comma-separated
entries of the `ALLOWED_IPS` environment value (passed here as the
`allowed_ips` argument), all fed through `_parse_networks`. -/
def _build_whitelist (allowed_ips : String) : List IPNetwork :=
  let cidrs := ANTHROPIC_CIDRS ++ LOOPBACK_CIDRS ++ LAN_CIDRS
  let extra := pyStrip allowed_ips
  let cidrs :=
    if extra ≠ "" then
      cidrs ++ ((pySplit extra ',').map pyStrip).filter (fun c => c ≠ "")
    else cidrs
  _parse_networks cidrs

/-- An inbound HTTP request as the middleware sees it: its header list
(name/value pairs; lookup is case-insensitive as in Starlette) and the
transport-layer peer address (`request.client.host`, absent when the ASGI
server supplies no client). -/
structure Request where
  headers : List (String × String)
  client : Option String

/-- Model of Starlette `request.headers.get(name)`: first header whose name
matches case-insensitively, `none` when the header is absent. -/
def headers_get (request : Request) (name : String) : Option String :=
  (request.headers.find? (fun p => pyLower p.1 = pyLower name)).map (fun p => p.2)

/-- Model of `_get_client_ip`: prefer a non-empty `CF-Connecting-IP` header
(stripped), then the first comma-separated entry of a non-empty
`X-Forwarded-For` header (stripped), then the peer address, then
`"0.0.0.0"`.  Python's `if header_value:` truthiness makes an absent header
and a present-but-empty header behave identically, which the `getD ""`
default mirrors. -/
def _get_client_ip (request : Request) : String :=
  let cf_ip := (headers_get request "CF-Connecting-IP").getD ""
  if cf_ip ≠ "" then pyStrip cf_ip
  else
    let xff := (headers_get request "X-Forwarded-For").getD ""
    if xff ≠ "" then pyStrip ((pySplit xff ',').getD 0 "")
    else
      match request.client with
      | some host => host
      | none => "0.0.0.0"

/-- Model of `_ip_in_networks`: parse the address (an unparseable string is
a non-match, not an error) and test membership against every network. -/
def _ip_in_networks (ip_str : String) (networks : List IPNetwork) : Bool :=
  match ip_address? ip_str with
  | none => false
  | some addr => networks.any (fun network => network_contains network addr)

/-- An HTTP response as produced by the middleware: status code, JSON body
(an association list of the object's fields) and extra response headers. -/
structure Response where
  status_code : Nat
  body : List (String × String)
  headers : List (String × String)
deriving DecidableEq, Repr

/-- Model of a `starlette.responses.JSONResponse` as the source builds it. -/
def JSONResponse (body : List (String × String)) (status_code : Nat)
    (hdrs : List (String × String)) : Response :=
  Response.mk status_code body hdrs

/-- The `IPWhitelistMiddleware` configuration state set in `__init__`. -/
structure IPWhitelistMiddleware where
  enabled : Bool
  whitelist : List IPNetwork
deriving Repr

/-- Model of `IPWhitelistMiddleware.__init__(app, enabled)`: the whitelist
is built only when the filter is enabled. -/
def IPWhitelistMiddleware.init (enabled : Bool) (allowed_ips : String) : IPWhitelistMiddleware :=
  IPWhitelistMiddleware.mk enabled (if enabled then _build_whitelist allowed_ips else [])

/-- Model of `IPWhitelistMiddleware._is_allowed`. -/
def IPWhitelistMiddleware._is_allowed (self : IPWhitelistMiddleware) (ip_str : String) : Bool :=
  _ip_in_networks ip_str self.whitelist

/-- Decision core of `IPWhitelistMiddleware.dispatch`: `none` means the
request is forwarded to the next stage, `some r` means the middleware
short-circuits with response `r`. -/
def IPWhitelistMiddleware.decide (self : IPWhitelistMiddleware) (request : Request) :
    Option Response :=
  if self.enabled = false then none
  else if self._is_allowed (_get_client_ip request) = false then
    some (JSONResponse [("error", "Access denied")] 403 [])
  else none

/-- Model of `IPWhitelistMiddleware.dispatch`: run the decision core and
either return its short-circuit response or call the next stage. -/
def IPWhitelistMiddleware.dispatch (self : IPWhitelistMiddleware) (request : Request)
    (call_next : Request → Response) : Response :=
  match self.decide request with
  | some resp => resp
  | none => call_next request

/-- The `BearerTokenMiddleware` configuration state set in `__init__`. -/
structure BearerTokenMiddleware where
  api_key : String
deriving Repr

/-- Model of `self.auth_enabled = bool(api_key)`. -/
def BearerTokenMiddleware.auth_enabled (self : BearerTokenMiddleware) : Bool :=
  decide (self.api_key ≠ "")

/-- Functional model of `secrets.compare_digest`: it decides string
equality.  Its constant-time execution property is a wall-clock guarantee
of the Python runtime and is not representable in this embedding. -/
def compare_digest (a b : String) : Bool :=
  decide (a = b)

/-- Model of `BearerTokenMiddleware._is_auth_exempt`: the client address is
in the Anthropic ranges or in the loopback ranges. -/
def BearerTokenMiddleware._is_auth_exempt (_self : BearerTokenMiddleware) (request : Request) :
    Bool :=
  let client_ip := _get_client_ip request
  if _ip_in_networks client_ip ANTHROPIC_NETWORKS = true then true
  else if _ip_in_networks client_ip LOOPBACK_NETWORKS = true then true
  else false

/-- Decision core of `BearerTokenMiddleware.dispatch`: `none` means the
request is forwarded to the next stage, `some r` means rejection with `r`.
The `Authorization` header defaults to `""` exactly as
`request.headers.get("Authorization", "")` does. -/
def BearerTokenMiddleware.decide (self : BearerTokenMiddleware) (request : Request) :
    Option Response :=
  if self.auth_enabled = false then none
  else if self._is_auth_exempt request = true then none
  else
    let auth_header := (headers_get request "Authorization").getD ""
    if pyStartswith auth_header "Bearer " = false then
      some (JSONResponse [("error", "Missing or invalid Authorization header")] 401
        [("WWW-Authenticate", "Bearer")])
    else
      let token := pyDropPre auth_header "Bearer "
      if compare_digest token self.api_key = false then
        some (JSONResponse [("error", "Invalid API key")] 403 [])
      else none

/-- Model of `BearerTokenMiddleware.dispatch`. -/
def BearerTokenMiddleware.dispatch (self : BearerTokenMiddleware) (request : Request)
    (call_next : Request → Response) : Response :=
  match self.decide request with
  | some resp => resp
  | none => call_next request

/-! ### Model of `src/server.py` -/

/-- The environment-derived configuration consumed by `create_app`:
`API_KEY`, `IP_WHITELIST_ENABLED`, and the raw `ALLOWED_IPS` value. -/
structure GatewayConfig where
  api_key : String
  ip_whitelist_enabled : Bool
  allowed_ips : String

/-- Model of `create_app`: Starlette applies middleware outermost-last, so
the IP whitelist (added last) runs first, then the bearer-token gate, then
the handler. -/
def create_app (cfg : GatewayConfig) (handler : Request → Response) :
    Request → Response :=
  fun request =>
    (IPWhitelistMiddleware.init cfg.ip_whitelist_enabled cfg.allowed_ips).dispatch request
      (fun r => (BearerTokenMiddleware.mk cfg.api_key).dispatch r handler)

example : ANTHROPIC_NETWORKS.length = 6 := by decide
example : LOOPBACK_NETWORKS = [IPNetwork.mk 4 0x7f000000 8, IPNetwork.mk 6 1 128] := by decide
example : (_build_whitelist "").length = 11 := by decide
example : (_build_whitelist "203.0.113.0/24, bogus").length = 12 := by decide
example : _ip_in_networks "127.0.0.1" LOOPBACK_NETWORKS = true := by decide
example : _ip_in_networks "::1" LOOPBACK_NETWORKS = true := by decide
example : _ip_in_networks "160.79.104.5" ANTHROPIC_NETWORKS = true := by decide
example : _ip_in_networks "203.0.113.5" (_build_whitelist "") = false := by decide
example : _ip_in_networks "192.168.1.50" (_build_whitelist "") = true := by decide
example : _get_client_ip (Request.mk [("CF-Connecting-IP", " 10.1.2.3 ")] (some "9.9.9.9")) = "10.1.2.3" := by decide
example : _get_client_ip (Request.mk [("CF-Connecting-IP", ""), ("X-Forwarded-For", "9.9.9.9, 8.8.8.8")] (some "1.1.1.1")) = "9.9.9.9" := by decide
example : _get_client_ip (Request.mk [] none) = "0.0.0.0" := by decide
example :
    (BearerTokenMiddleware.mk "secret123").decide
      (Request.mk [("Authorization", "Bearer secret123")] (some "192.168.1.50")) = none := by
  decide
example :
    (BearerTokenMiddleware.mk "secret123").decide
      (Request.mk [("Authorization", "Bearer wrong")] (some "192.168.1.50")) =
      some (JSONResponse [("error", "Invalid API key")] 403 []) := by
  decide
example :
    (BearerTokenMiddleware.mk "secret123").decide (Request.mk [] (some "192.168.1.50")) =
      some (JSONResponse [("error", "Missing or invalid Authorization header")] 401
        [("WWW-Authenticate", "Bearer")]) := by
  decide
example :
    (BearerTokenMiddleware.mk "secret123").decide (Request.mk [] (some "127.0.0.1")) = none := by
  decide

/-! ### Shared lemmas -/

/-- Header lookup depends only on the header list of the request. -/
theorem headers_get_congr (req₁ req₂ : Request) (h : req₁.headers = req₂.headers)
    (name : String) : headers_get req₁ name = headers_get req₂ name := by
  unfold headers_get
  rw [h]

/-- When the `CF-Connecting-IP` header is present with a non-empty value,
the client IP is that value, stripped. -/
theorem get_client_ip_cf (req : Request)
    (h : (headers_get req "CF-Connecting-IP").getD "" ≠ "") :
    _get_client_ip req = pyStrip ((headers_get req "CF-Connecting-IP").getD "") := by
  simp only [_get_client_ip]
  rw [if_pos h]

/-- The exemption test is the disjunction of the two range-membership
tests on the extracted client IP. -/
theorem is_auth_exempt_eq (self : BearerTokenMiddleware) (req : Request) :
    self._is_auth_exempt req =
      (_ip_in_networks (_get_client_ip req) ANTHROPIC_NETWORKS ||
       _ip_in_networks (_get_client_ip req) LOOPBACK_NETWORKS) := by
  unfold BearerTokenMiddleware._is_auth_exempt
  cases hA : _ip_in_networks (_get_client_ip req) ANTHROPIC_NETWORKS <;>
    cases hL : _ip_in_networks (_get_client_ip req) LOOPBACK_NETWORKS <;> simp [hA, hL]

/-- A non-empty configured key turns credential checking on. -/
theorem auth_enabled_of_ne (api_key : String) (hk : api_key ≠ "") :
    (BearerTokenMiddleware.mk api_key).auth_enabled = true := by
  simp [BearerTokenMiddleware.auth_enabled, hk]

/-! ### Claim theorems -/

/-- C1: with a non-empty `apiKey`, a request whose ClientIdentity is inside
the Anthropic ranges or the loopback ranges is forwarded by the Credential
Gate without the `Authorization` header being consulted (the decision
`none` is reached before the header is read, for every header list, so in
particular with no `Authorization` header), and the whole pipeline then
behaves as if the Credential Gate were absent for any state of the Origin
Filter's `enabled` flag. -/
theorem credential_gate_exempts_trusted_sources
    (api_key : String) (req : Request) (hk : api_key ≠ "")
    (hex : _ip_in_networks (_get_client_ip req) ANTHROPIC_NETWORKS = true ∨
           _ip_in_networks (_get_client_ip req) LOOPBACK_NETWORKS = true) :
    (BearerTokenMiddleware.mk api_key).decide req = none ∧
    (∀ next : Request → Response,
      (BearerTokenMiddleware.mk api_key).dispatch req next = next req) ∧
    (∀ (enabled : Bool) (allowed : String) (handler : Request → Response),
      create_app (GatewayConfig.mk api_key enabled allowed) handler req =
        (IPWhitelistMiddleware.init enabled allowed).dispatch req handler) := by
  have hexempt : (BearerTokenMiddleware.mk api_key)._is_auth_exempt req = true := by
    rw [is_auth_exempt_eq]
    rcases hex with h | h <;> simp [h]
  have hd : (BearerTokenMiddleware.mk api_key).decide req = none := by
    unfold BearerTokenMiddleware.decide
    simp [auth_enabled_of_ne api_key hk, hexempt]
  refine ⟨hd, fun next => ?_, fun enabled allowed handler => ?_⟩
  · unfold BearerTokenMiddleware.dispatch
    rw [hd]
  · unfold create_app IPWhitelistMiddleware.dispatch
    cases h : (IPWhitelistMiddleware.init enabled allowed).decide req <;>
      simp [h, BearerTokenMiddleware.dispatch, hd]

/-- C1 witness: loopback client `127.0.0.1`, no headers at all, key
`secret123` — the Credential Gate forwards. -/
theorem credential_gate_exempts_trusted_sources_witness :
    (BearerTokenMiddleware.mk "secret123").decide (Request.mk [] (some "127.0.0.1")) = none :=
  (credential_gate_exempts_trusted_sources "secret123" (Request.mk [] (some "127.0.0.1"))
    (by decide) (Or.inr (by decide))).1

/-- C2: with a non-empty `apiKey` and a non-exempt ClientIdentity, the
Credential Gate's outcome is exactly three-valued on the `Authorization`
header (an absent header is read as `""`, which has no `Bearer ` prefix):
no `Bearer ` prefix ⇒ 401 with the challenge header; prefix with a token
differing from `apiKey` ⇒ 403 `Invalid API key`; token equal to `apiKey`
⇒ forwarded. -/
theorem credential_gate_three_outcomes
    (api_key : String) (req : Request) (hk : api_key ≠ "")
    (hex : (BearerTokenMiddleware.mk api_key)._is_auth_exempt req = false) :
    (BearerTokenMiddleware.mk api_key).decide req =
      if pyStartswith ((headers_get req "Authorization").getD "") "Bearer " = false then
        some (JSONResponse [("error", "Missing or invalid Authorization header")] 401
          [("WWW-Authenticate", "Bearer")])
      else if pyDropPre ((headers_get req "Authorization").getD "") "Bearer " = api_key then
        none
      else some (JSONResponse [("error", "Invalid API key")] 403 []) := by
  unfold BearerTokenMiddleware.decide
  simp only [auth_enabled_of_ne api_key hk, hex]
  by_cases hs : pyStartswith ((headers_get req "Authorization").getD "") "Bearer " = false
  · simp [hs]
  · by_cases ht : pyDropPre ((headers_get req "Authorization").getD "") "Bearer " = api_key <;>
      simp [hs, ht, compare_digest]

/-- C2 witness: LAN client `192.168.1.50` with header `Bearer wrong`
against key `secret123` is rejected with the 403 `Invalid API key` body. -/
theorem credential_gate_three_outcomes_witness :
    (BearerTokenMiddleware.mk "secret123").decide
        (Request.mk [("Authorization", "Bearer wrong")] (some "192.168.1.50")) =
      some (JSONResponse [("error", "Invalid API key")] 403 []) := by
  rw [credential_gate_three_outcomes "secret123"
    (Request.mk [("Authorization", "Bearer wrong")] (some "192.168.1.50"))
    (by decide) (by decide)]
  decide

/-- C3: with the Origin Filter enabled, a request is forwarded exactly when
its ClientIdentity parses as an IP address lying in some whitelist network;
otherwise — parse failure included — the filter short-circuits with the 403
`Access denied` response. -/
theorem origin_filter_allows_iff_whitelisted (allowed : String) (req : Request) :
    ((IPWhitelistMiddleware.init true allowed).decide req =
      if _ip_in_networks (_get_client_ip req) (_build_whitelist allowed) = true then none
      else some (JSONResponse [("error", "Access denied")] 403 [])) ∧
    (_ip_in_networks (_get_client_ip req) (_build_whitelist allowed) = true ↔
      ∃ a, ip_address? (_get_client_ip req) = some a ∧
        (_build_whitelist allowed).any (fun n => network_contains n a) = true) ∧
    (∀ next : Request → Response,
      (IPWhitelistMiddleware.init true allowed).dispatch req next =
        if _ip_in_networks (_get_client_ip req) (_build_whitelist allowed) = true then next req
        else JSONResponse [("error", "Access denied")] 403 []) := by
  have hinit : IPWhitelistMiddleware.init true allowed =
      IPWhitelistMiddleware.mk true (_build_whitelist allowed) := by
    simp [IPWhitelistMiddleware.init]
  refine ⟨?_, ?_, fun next => ?_⟩
  · rw [hinit]
    unfold IPWhitelistMiddleware.decide IPWhitelistMiddleware._is_allowed
    cases h : _ip_in_networks (_get_client_ip req) (_build_whitelist allowed) <;> simp [h]
  · unfold _ip_in_networks
    cases h : ip_address? (_get_client_ip req) <;> simp [h]
  · rw [hinit]
    unfold IPWhitelistMiddleware.dispatch IPWhitelistMiddleware.decide
      IPWhitelistMiddleware._is_allowed
    cases h : _ip_in_networks (_get_client_ip req) (_build_whitelist allowed) <;> simp [h]

/-- C8: with an empty `apiKey`, credential checking is globally disabled:
`auth_enabled` is false and every request — whatever its headers and
client address — is forwarded to the next stage. -/
theorem credential_gate_authless_mode (req : Request) :
    (BearerTokenMiddleware.mk "").auth_enabled = false ∧
    (BearerTokenMiddleware.mk "").decide req = none ∧
    ∀ next : Request → Response, (BearerTokenMiddleware.mk "").dispatch req next = next req :=
  ⟨rfl, rfl, fun _ => rfl⟩

/-- C9: `_parse_networks` is a total function whose result is exactly the
successfully parsed entries in their original order (malformed entries are
dropped, never an error), and a malformed CIDR — whether in a static list
or in the `ALLOWED_IPS` value — merely disappears from the whitelist. -/
theorem parse_networks_never_fatal :
    (∀ cidrs : List String, _parse_networks cidrs = cidrs.filterMap ip_network?) ∧
    _parse_networks ["10.0.0.0/8", "totally-bogus", "::1/128"] =
      [IPNetwork.mk 4 0x0a000000 8, IPNetwork.mk 6 1 128] ∧
    (_build_whitelist "203.0.113.0/24, 999.1.1.1/8").length = 12 := by
  refine ⟨fun cidrs => ?_, by decide, by decide⟩
  induction cidrs with
  | nil => rfl
  | cons c rest ih =>
    unfold _parse_networks
    cases h : ip_network? c <;> simp [h, ih]

/-- C4: the composed application runs the Origin Filter first and the
Credential Gate second.  A request the Origin Filter rejects produces the
filter's response for every handler and every credential configuration (so
neither the Credential Gate's configuration nor the handler can influence
it); a request the filter forwards but the gate rejects produces the
gate's response for every handler; only when both forward does the
handler's response appear. -/
theorem pipeline_origin_filter_before_credential_gate
    (cfg : GatewayConfig) (handler handler' : Request → Response) (k' : String)
    (req : Request) (resp : Response) :
    ((IPWhitelistMiddleware.init cfg.ip_whitelist_enabled cfg.allowed_ips).decide req =
        some resp →
      create_app cfg handler req = resp ∧
      create_app (GatewayConfig.mk k' cfg.ip_whitelist_enabled cfg.allowed_ips) handler' req =
        resp) ∧
    ((IPWhitelistMiddleware.init cfg.ip_whitelist_enabled cfg.allowed_ips).decide req = none →
      (BearerTokenMiddleware.mk cfg.api_key).decide req = some resp →
      create_app cfg handler req = resp ∧ create_app cfg handler' req = resp) ∧
    ((IPWhitelistMiddleware.init cfg.ip_whitelist_enabled cfg.allowed_ips).decide req = none →
      (BearerTokenMiddleware.mk cfg.api_key).decide req = none →
      create_app cfg handler req = handler req) := by
  refine ⟨fun h1 => ?_, fun h1 h2 => ?_, fun h1 h2 => ?_⟩
  · constructor <;> simp [create_app, IPWhitelistMiddleware.dispatch, h1]
  · constructor <;>
      simp [create_app, IPWhitelistMiddleware.dispatch, BearerTokenMiddleware.dispatch, h1, h2]
  · simp [create_app, IPWhitelistMiddleware.dispatch, BearerTokenMiddleware.dispatch, h1, h2]

/-- C4 witness: a request from the public address `203.0.113.5` is denied
by the Origin Filter, and the composed app returns `Access denied` both
with key `secret123` and with an empty key, for a handler it never uses. -/
theorem pipeline_origin_filter_before_credential_gate_witness :
    create_app (GatewayConfig.mk "secret123" true "") (fun _ => Response.mk 200 [] [])
        (Request.mk [] (some "203.0.113.5")) =
      JSONResponse [("error", "Access denied")] 403 [] ∧
    create_app (GatewayConfig.mk "" true "") (fun _ => Response.mk 200 [] [])
        (Request.mk [] (some "203.0.113.5")) =
      JSONResponse [("error", "Access denied")] 403 [] :=
  (pipeline_origin_filter_before_credential_gate (GatewayConfig.mk "secret123" true "")
    (fun _ => Response.mk 200 [] []) (fun _ => Response.mk 200 [] []) ""
    (Request.mk [] (some "203.0.113.5")) (JSONResponse [("error", "Access denied")] 403 [])).1
    (by decide)

/-- Modelled from the spec's words for claim C6 as stated: ClientIdentity
is the stripped `CF-Connecting-IP` value whenever that header is present
(no non-emptiness condition), else the stripped first `X-Forwarded-For`
entry whenever that header is present, else the peer address, else
`"0.0.0.0"`. -/
def client_ip_spec_as_stated (req : Request) : String :=
  match headers_get req "CF-Connecting-IP" with
  | some v => pyStrip v
  | none =>
    match headers_get req "X-Forwarded-For" with
    | some v => pyStrip ((pySplit v ',').getD 0 "")
    | none =>
      match req.client with
      | some host => host
      | none => "0.0.0.0"

/-- Peer-address fallback of the ClientIdentity resolution. -/
def client_ip_peer (req : Request) : String :=
  match req.client with
  | some host => host
  | none => "0.0.0.0"

/-- `X-Forwarded-For` step of the amended ClientIdentity resolution:
used only when present with a non-empty value. -/
def client_ip_xff_amended (req : Request) : String :=
  match headers_get req "X-Forwarded-For" with
  | some v => if v ≠ "" then pyStrip ((pySplit v ',').getD 0 "") else client_ip_peer req
  | none => client_ip_peer req

/-- Modelled from the spec's words for claim C6 as amended: a header is
consulted only when it is present *with a non-empty value*. -/
def client_ip_spec_amended (req : Request) : String :=
  match headers_get req "CF-Connecting-IP" with
  | some v => if v ≠ "" then pyStrip v else client_ip_xff_amended req
  | none => client_ip_xff_amended req

/-- C6 counterexample: with `CF-Connecting-IP` present but empty and
`X-Forwarded-For: 9.9.9.9`, the claim's priority order yields `""` (the
stripped value of the present `CF-Connecting-IP` header), while the code
falls through to the forwarded-for entry `9.9.9.9`. -/
theorem client_ip_priority_counterexample :
    (headers_get (Request.mk [("CF-Connecting-IP", ""), ("X-Forwarded-For", "9.9.9.9")]
        (some "8.8.8.8")) "CF-Connecting-IP").isSome = true ∧
    client_ip_spec_as_stated
        (Request.mk [("CF-Connecting-IP", ""), ("X-Forwarded-For", "9.9.9.9")]
          (some "8.8.8.8")) = "" ∧
    _get_client_ip
        (Request.mk [("CF-Connecting-IP", ""), ("X-Forwarded-For", "9.9.9.9")]
          (some "8.8.8.8")) = "9.9.9.9" := by
  decide

/-- C6 amended: ClientIdentity resolution follows the claimed priority
order with presence strengthened to presence-with-a-non-empty-value at
both header steps. -/
theorem client_ip_priority_amended (req : Request) :
    _get_client_ip req = client_ip_spec_amended req := by
  unfold _get_client_ip client_ip_spec_amended client_ip_xff_amended client_ip_peer
  cases hcf : headers_get req "CF-Connecting-IP" with
  | some v =>
    by_cases hv : v ≠ "" <;>
      cases hxff : headers_get req "X-Forwarded-For" <;> simp [hcf, hv, hxff]
  | none =>
    cases hxff : headers_get req "X-Forwarded-For" with
    | some w => by_cases hw : w ≠ "" <;> simp [hcf, hxff, hw]
    | none => simp [hcf, hxff]

/-- C7 counterexample: at the claim's own example input, the IPv4-mapped
IPv6 address `::ffff:10.1.2.3` parses (as an IPv6 address embedding
`10.1.2.3`) but is *not* classified as a member of `10.0.0.0/8` — Python's
`addr in network` is always false across address families — so the claimed
membership fails. -/
theorem mapped_ipv6_not_in_ipv4_range_counterexample :
    ip_address? "::ffff:10.1.2.3" = some (IPAddr.v6 (0xffff * 2 ^ 32 + 0x0a010203)) ∧
    _parse_networks ["10.0.0.0/8"] = [IPNetwork.mk 4 0x0a000000 8] ∧
    _ip_in_networks "::ffff:10.1.2.3" (_parse_networks ["10.0.0.0/8"]) = false := by
  decide

/-- C7 amended: the literal IPv6 loopback `::1` is classified as a member
of the loopback ranges; an IPv4-mapped IPv6 address is classifiable — it
parses successfully and classification returns a (negative) answer rather
than an error — but it is a member of no IPv4 range, membership across
address families being uniformly false, while its embedded IPv4 address in
plain dotted form is a member. -/
theorem ipv6_classification_amended :
    _ip_in_networks "::1" LOOPBACK_NETWORKS = true ∧
    (ip_address? "::ffff:10.1.2.3").isSome = true ∧
    _ip_in_networks "::ffff:10.1.2.3" (_parse_networks ["10.0.0.0/8"]) = false ∧
    _ip_in_networks "10.1.2.3" (_parse_networks ["10.0.0.0/8"]) = true ∧
    (∀ (v : Nat) (n : IPNetwork), n.version = 4 →
      network_contains n (IPAddr.v6 v) = false) := by
  refine ⟨by decide, by decide, by decide, by decide, fun v n h => ?_⟩
  unfold network_contains
  simp [IPAddr.version, h]

/-- C7 amended witness: the cross-family membership conjunct applied to a
concrete IPv6 value and the concrete network `10.0.0.0/8`. -/
theorem ipv6_classification_amended_witness :
    network_contains (IPNetwork.mk 4 0x0a000000 8) (IPAddr.v6 5) = false :=
  ipv6_classification_amended.2.2.2.2 5 (IPNetwork.mk 4 0x0a000000 8) rfl

/-- C10 counterexample: two requests with identical header lists, both
carrying a `CF-Connecting-IP` header (with an empty value), on which the
Credential Gate decides differently depending on the transport-layer peer
address: the loopback peer is forwarded, the public peer gets the 401
rejection. -/
theorem exemption_peer_independence_counterexample :
    (Request.mk [("CF-Connecting-IP", "")] (some "127.0.0.1")).headers =
      (Request.mk [("CF-Connecting-IP", "")] (some "203.0.113.5")).headers ∧
    (headers_get (Request.mk [("CF-Connecting-IP", "")] (some "127.0.0.1"))
        "CF-Connecting-IP").isSome = true ∧
    (BearerTokenMiddleware.mk "secret123").decide
        (Request.mk [("CF-Connecting-IP", "")] (some "127.0.0.1")) = none ∧
    (BearerTokenMiddleware.mk "secret123").decide
        (Request.mk [("CF-Connecting-IP", "")] (some "203.0.113.5")) =
      some (JSONResponse [("error", "Missing or invalid Authorization header")] 401
        [("WWW-Authenticate", "Bearer")]) := by
  decide

/-- C10 amended: when the `CF-Connecting-IP` header is present *with a
non-empty value*, the Credential Gate's decision is a function of the
header list alone — two requests with identical headers decide alike
whatever their peer addresses — and a request whose `CF-Connecting-IP`
header is exactly `127.0.0.1` is always forwarded by the gate, whatever
its peer address and its other headers. -/
theorem exemption_peer_independence_amended
    (api_key : String) (req₁ req₂ : Request)
    (hh : req₁.headers = req₂.headers)
    (hcf : (headers_get req₁ "CF-Connecting-IP").getD "" ≠ "") :
    ((BearerTokenMiddleware.mk api_key).decide req₁ =
      (BearerTokenMiddleware.mk api_key).decide req₂) ∧
    (∀ req : Request, headers_get req "CF-Connecting-IP" = some "127.0.0.1" →
      (BearerTokenMiddleware.mk api_key).decide req = none) := by
  constructor
  · have hcf₂ : (headers_get req₂ "CF-Connecting-IP").getD "" ≠ "" := by
      rw [← headers_get_congr req₁ req₂ hh]
      exact hcf
    have hip : _get_client_ip req₁ = _get_client_ip req₂ := by
      rw [get_client_ip_cf req₁ hcf, get_client_ip_cf req₂ hcf₂,
        headers_get_congr req₁ req₂ hh]
    have hauth := headers_get_congr req₁ req₂ hh "Authorization"
    unfold BearerTokenMiddleware.decide BearerTokenMiddleware._is_auth_exempt
    rw [hip, hauth]
  · intro req hcf127
    have hgd : (headers_get req "CF-Connecting-IP").getD "" = "127.0.0.1" := by
      rw [hcf127]
      rfl
    have hne : (headers_get req "CF-Connecting-IP").getD "" ≠ "" := by
      rw [hgd]
      decide
    have hip : _get_client_ip req = "127.0.0.1" := by
      rw [get_client_ip_cf req hne, hgd]
      decide
    have hexempt : (BearerTokenMiddleware.mk api_key)._is_auth_exempt req = true := by
      rw [is_auth_exempt_eq, hip]
      decide
    unfold BearerTokenMiddleware.decide
    by_cases hk0 : (BearerTokenMiddleware.mk api_key).auth_enabled = false
    · simp [hk0]
    · simp [hk0, hexempt]

/-- C10 amended witness: two requests sharing the header
`CF-Connecting-IP: 160.79.104.5` but with different peer addresses receive
the same Credential Gate decision. -/
theorem exemption_peer_independence_witness :
    (BearerTokenMiddleware.mk "secret123").decide
        (Request.mk [("CF-Connecting-IP", "160.79.104.5")] (some "10.0.0.1")) =
      (BearerTokenMiddleware.mk "secret123").decide
        (Request.mk [("CF-Connecting-IP", "160.79.104.5")] (some "203.0.113.9")) :=
  (exemption_peer_independence_amended "secret123"
    (Request.mk [("CF-Connecting-IP", "160.79.104.5")] (some "10.0.0.1"))
    (Request.mk [("CF-Connecting-IP", "160.79.104.5")] (some "203.0.113.9"))
    rfl (by decide)).1

end AinaGateway
